import Mathlib

/-!
Shallow embedding of the SDMaker application (`src/app.py`) and proofs about it.

The app is a Streamlit document-synthesis pipeline.  Python strings are
modelled by Lean `String` (operating on the underlying `List Char`); the
ASCII fragment of `str.isdigit` / `str.strip` is modelled, which is the
fragment the application exercises (keys and sentinels are ASCII).  Calls to
the LLM backend are modelled by an `Except String String` outcome: `.ok r`
is a response with message content `r`, `.error e` is a raised exception
with text `e`.
-/

namespace SDMaker

/-- ASCII whitespace, as removed by Python `str.strip()`. -/
def isSpaceChar (c : Char) : Bool :=
  c == ' ' || c == '\t' || c == '\n' || c == '\r' || c == '\x0b' || c == '\x0c'

/-- Python `s.strip()`: remove leading and trailing whitespace. -/
def pyStrip (s : String) : String :=
  String.mk (((s.data.dropWhile isSpaceChar).reverse.dropWhile isSpaceChar).reverse)

/-- The decimal digit character for `n < 10` (and `'9'` past that, unused). -/
def digitChar : Nat → Char
  | 0 => '0' | 1 => '1' | 2 => '2' | 3 => '3' | 4 => '4'
  | 5 => '5' | 6 => '6' | 7 => '7' | 8 => '8' | _ => '9'

/-- Numeric value of a decimal digit character. -/
def charToDigit (c : Char) : Nat := c.toNat - 48

/-- Decimal digits of `n`, most significant first; `fuel` bounds recursion
(structural, so that the kernel can evaluate it). -/
def natDigitsAux : Nat → Nat → List Char
  | 0, _ => []
  | fuel + 1, n =>
    if n < 10 then [digitChar n]
    else natDigitsAux fuel (n / 10) ++ [digitChar (n % 10)]

/-- Decimal digit string of `n`, as produced by Python `"%d" % n`. -/
def natDigits (n : Nat) : List Char := natDigitsAux (n + 1) n

/-- Value of a decimal digit string, as parsed by Python `int(s)`. -/
def parseDigits (l : List Char) : Nat :=
  l.foldl (fun a c => 10 * a + charToDigit c) 0

/-- Left-pad a digit string with `'0'` to width 6: Python `"%06d"` formatting. -/
def padLeft6 (ds : List Char) : List Char :=
  List.replicate (6 - ds.length) '0' ++ ds

/-- The numeric suffix of a key matching the `"CR" + digits` pattern
(`key.startswith("CR") and key[2:].isdigit()` in `get_next_cr_number`,
src/app.py:93), `none` for non-conforming keys. -/
def crSuffix (key : String) : Option Nat :=
  if ['C', 'R'].isPrefixOf key.data
      && !(key.data.drop 2).isEmpty && (key.data.drop 2).all Char.isDigit then
    some (parseDigits (key.data.drop 2))
  else none

/-- One iteration of the max-scan loop of `get_next_cr_number` (src/app.py:91-96). -/
def scanStep (m : Nat) (key : String) : Nat :=
  match crSuffix key with
  | some num => if num > m then num else m
  | none => m

/-- The knowledge base: Python dict mapping CR keys to documents, modelled as
an association list in insertion order. -/
abbrev KB := List (String × String)

/-- The max-scan loop of `get_next_cr_number` starting from accumulator `a`. -/
def scanFold (a : Nat) (kb : KB) : Nat :=
  kb.foldl (fun m kv => scanStep m kv.1) a

/-- `get_next_cr_number` (src/app.py:85-99): `"CR000001"` for an empty
knowledge base, else `"CR"` plus the zero-padded successor of the maximal
numeric suffix among `"CR" + digits` keys. -/
def get_next_cr_number (kb : KB) : String :=
  if kb.isEmpty then "CR000001"
  else
    let max_num := scanFold 0 kb
    String.mk ('C' :: 'R' :: padLeft6 (natDigits (max_num + 1)))

/-- Specification-side quantity: the maximum numeric suffix among keys
matching the `"CR" + digits` pattern (0 if none match); non-conforming keys
are simply filtered out. -/
def maxMatchedSuffix (keys : List String) : Nat :=
  (keys.filterMap crSuffix).foldr max 0

/-! ## Relevance validator (`check_document_relevance`, src/app.py:62-83) -/

/-- The invalid sentinel token checked by `startswith("INVALID")` (src/app.py:381). -/
def invalidTok : List Char := ['I', 'N', 'V', 'A', 'L', 'I', 'D']

/-- The tag removed by `replace('INVALID:', '')` (src/app.py:383). -/
def invalidTag : List Char := ['I', 'N', 'V', 'A', 'L', 'I', 'D', ':']

/-- Whether `"INVALID:"` occurs anywhere in the text (Python substring search). -/
def hasInvalid : List Char → Bool
  | [] => false
  | c :: rest => invalidTag.isPrefixOf (c :: rest) || hasInvalid rest

/-- Left-to-right removal of every `"INVALID:"` occurrence, with structural
fuel; models Python `s.replace('INVALID:', '')`. -/
def stripInvalidAux : Nat → List Char → List Char
  | 0, l => l
  | _ + 1, [] => []
  | fuel + 1, c :: rest =>
    if invalidTag.isPrefixOf (c :: rest) then
      stripInvalidAux fuel ((c :: rest).drop invalidTag.length)
    else c :: stripInvalidAux fuel rest

/-- Python `s.replace('INVALID:', '')`. -/
def stripInvalid (l : List Char) : List Char := stripInvalidAux l.length l

/-- `check_document_relevance` (src/app.py:62-83), abstracted over the backend
call outcome: a successful call returns the stripped message content; an
exception yields the fail-closed `INVALID`-prefixed message embedding the
error text. -/
def check_document_relevance (backend : Except String String) : String :=
  match backend with
  | .ok content => pyStrip content
  | .error e => "INVALID: API Error during validation - " ++ e

/-- Result of the validation step at the caller. -/
inductive Verdict where
  | valid : Verdict
  | invalid (reason : String) : Verdict
deriving DecidableEq

/-- The validation step on a validator result (src/app.py:380-391): block with
the reason `validation.replace('INVALID:', '').strip()` when the result starts
with `"INVALID"`, otherwise proceed as valid. -/
def validationStep (validation : String) : Verdict :=
  if invalidTok.isPrefixOf validation.data then
    .invalid (pyStrip (String.mk (stripInvalid validation.data)))
  else .valid

/-! ## Gap analyzer (`check_missing_information`, src/app.py:101-128) -/

/-- `check_missing_information` (src/app.py:101-128), abstracted over the
backend call outcome: a successful call returns the stripped message content;
any exception returns the `"NONE"` sentinel (fail open, src/app.py:127-128). -/
def check_missing_information (backend : Except String String) : String :=
  match backend with
  | .ok response => pyStrip response
  | .error _ => "NONE"

/-- Outcome of the decision fork after gap analysis. -/
inductive ForkAction where
  | awaitSupplement (report : String) : ForkAction
  | synthesize : ForkAction
deriving DecidableEq

/-- The decision fork (src/app.py:399-412): any report other than `"NONE"`
pauses the run awaiting supplemental input; `"NONE"` proceeds to synthesis. -/
def decisionFork (missing_report : String) : ForkAction :=
  if missing_report ≠ "NONE" then .awaitSupplement missing_report else .synthesize

/-! ## Synthesis backend call and state update (src/app.py:130-151, 270-282) -/

/-- `get_groq_response` (src/app.py:130-151): `none` (with an error box) when
the API key is falsy, before any backend call is attempted; otherwise the
backend outcome, with exceptions converted to `none`. -/
def get_groq_response (api_key : Option String) (backend : Except String String) :
    Option String :=
  if api_key.getD "" = "" then none
  else
    match backend with
    | .ok content => some content
    | .error _ => none

/-- The pipeline session state touched by `execute_synthesis_pipeline`. -/
structure PipelineState where
  generated_sd : String
  awaiting_missing_info : Bool
deriving DecidableEq

/-- The state update at the end of `execute_synthesis_pipeline`
(src/app.py:279-282): only a truthy (non-`None`, non-empty) response replaces
the generated document and clears the awaiting flag. -/
def execute_synthesis_update (s : PipelineState) (response : Option String) :
    PipelineState :=
  match response with
  | some r => if r = "" then s else ⟨r, false⟩
  | none => s

/-! ## Synthesis prompt construction (src/app.py:240-268) -/

/-- Fixed prompt text before the regulatory content (src/app.py:242-249). -/
def promptIntro : String :=
  "\nI am providing several key documents below to be synthesized into a single Solution Document (SD).\n\nPlease synthesize them exactly according to the provided system instructions and strictly follow the layout defined in the XML SD Template provided below.\n\n---\n### INPUT DOCUMENTS:\n**1. Regulatory Document Content:**\n"

/-- Fixed prompt text before the BRD content (src/app.py:252). -/
def promptBrdHeader : String :=
  "\n\n**2. Business Requirement Document (BRD/URF) Content:**\n"

/-- Fixed prompt text before the template content (src/app.py:255). -/
def promptTplHeader : String :=
  "\n\n**3. Solution Document (SD) Template Structure (MANDATORY OUTPUT FORMAT - XML):**\n"

/-- Header of the optional supporting-document section (src/app.py:259). -/
def addHeader : String :=
  "\n---\n**4. Additional Supporting Document Content:**\n"

/-- Header of the optional parent-document section (src/app.py:262-264). -/
def parentHeader : String :=
  "\n---\n**5. Parent Solution Document (Reference):**\n"

/-- Trailing instruction of the parent-document section (src/app.py:265-268). -/
def parentFooter : String :=
  "\n\n*Instruction: Use this older Parent SD to pre-fill or carry over common project details, architecture patterns, and standard constraints applicable to the current CR.*\n"

/-- The unconditional part of the synthesis prompt (src/app.py:242-257). -/
def basePrompt (reg brd template : String) : String :=
  promptIntro ++ reg ++ promptBrdHeader ++ brd ++ promptTplHeader ++ template ++ "\n"

/-- The parent-document section appended when a parent SD is present
(src/app.py:261-268), empty otherwise. -/
def parentPart (parent_sd_content : String) : String :=
  if parent_sd_content ≠ "" then parentHeader ++ parent_sd_content ++ parentFooter
  else ""

/-- Full synthesis prompt of `execute_synthesis_pipeline` (src/app.py:242-268):
the supporting-document section is appended only when `additional.strip()` is
truthy, the parent section only when `parent_sd_content` is truthy. -/
def synthesizePrompt (reg brd additional template parent_sd_content : String) :
    String :=
  let p1 := basePrompt reg brd template
  let p2 := if pyStrip additional ≠ "" then p1 ++ addHeader ++ additional ++ "\n" else p1
  if parent_sd_content ≠ "" then p2 ++ parentHeader ++ parent_sd_content ++ parentFooter
  else p2

/-- The final step of `extract_text_from_files` (src/app.py:184): the
concatenated text is returned stripped of surrounding whitespace. -/
def extract_result (combined_text : String) : String := pyStrip combined_text

/-- An additional-documents text is well formed when it is blank only by being
empty; every value reaching `execute_synthesis_pipeline` satisfies this. -/
def GoodAdditional (a : String) : Prop := a ≠ "" → pyStrip a ≠ ""

/-! ## Missing-information proceed handler (src/app.py:428-440) -/

/-- Label prepended to user-supplied supplemental text (src/app.py:432). -/
def supplementalTag : String := "\n\n[User Provided Supplemental Information]:\n"

/-- The combination step of the `Proceed and Generate SD` handler
(src/app.py:430-432): non-blank supplemental text is appended, labelled, to
the cached supporting text. -/
def proceedCombined (cached_add user_supplemental : String) : String :=
  if pyStrip user_supplemental ≠ "" then
    cached_add ++ supplementalTag ++ user_supplemental
  else cached_add

/-- The four texts cached when entering the missing-information pause
(src/app.py:403-408). -/
structure CachedDocs where
  reg : String
  brd : String
  add : String
  tpl : String

/-- The argument vector passed to `execute_synthesis_pipeline`. -/
structure SynthArgs where
  reg : String
  brd : String
  additional : String
  template : String

/-- The `Proceed and Generate SD` handler (src/app.py:428-440): invokes
synthesis on the cached texts, with supplemental text folded into the
supporting text. -/
def proceedHandler (cached : CachedDocs) (user_supplemental : String) : SynthArgs :=
  ⟨cached.reg, cached.brd, proceedCombined cached.add user_supplemental, cached.tpl⟩

/-! ## Knowledge-base store (src/app.py:483-518) -/

/-- Python `key in dict` membership test. -/
def anyKey (kb : KB) (k : String) : Bool := kb.any (fun p => p.1 == k)

/-- Python dict assignment `kb[k] = v`: replace in place when the key exists,
append otherwise. -/
def dictInsert (kb : KB) (k v : String) : KB :=
  if anyKey kb k then kb.map (fun p => if p.1 == k then (p.1, v) else p)
  else kb ++ [(k, v)]

/-- Python `dict.get`-style lookup. -/
def lookupKB (kb : KB) (k : String) : Option String := List.lookup k kb

/-- Store-relevant session state: the in-memory knowledge base, the content of
the persisted `knowledge_base.json`, and the pending conflict flag. -/
structure KBState where
  kb : KB
  persisted : KB
  cr_conflict : Option String

/-- The uniqueness check and store of the `Insert into Knowledge Base` handler
(src/app.py:487-497), given the resolved key: an existing key only sets the
conflict flag; otherwise the document is stored and the whole base persisted
(`clear_inputs` resets the conflict flag on success). -/
def insertIntoKB (s : KBState) (cr_key doc : String) : KBState :=
  if anyKey s.kb cr_key then ⟨s.kb, s.persisted, some cr_key⟩
  else
    let kb2 := dictInsert s.kb cr_key doc
    ⟨kb2, kb2, none⟩

/-- The `Auto-Assign & Save` conflict-resolution handler (src/app.py:506-514):
stores under a freshly computed key with no uniqueness check and persists. -/
def autoAssignSave (s : KBState) (doc : String) : KBState :=
  let new_cr := get_next_cr_number s.kb
  let kb2 := dictInsert s.kb new_cr doc
  ⟨kb2, kb2, none⟩

/-- Key resolution plus store of the `Insert into Knowledge Base` handler
(src/app.py:483-497): a blank key field falls back to the auto-generated next
key, a non-blank one is stripped (src/app.py:484). -/
def insertHandler (s : KBState) (current_cr doc : String) : KBState :=
  let stripped := pyStrip current_cr
  let cr_key := if stripped ≠ "" then stripped else get_next_cr_number s.kb
  insertIntoKB s cr_key doc

/-! ## Basic string lemmas -/

theorem str_data_append (s t : String) : (s ++ t).data = s.data ++ t.data := by
  cases s; cases t; rfl

theorem str_append_assoc (a b c : String) : a ++ b ++ c = a ++ (b ++ c) := by
  cases a with
  | mk la =>
    cases b with
    | mk lb =>
      cases c with
      | mk lc =>
        show String.mk (la ++ lb ++ lc) = String.mk (la ++ (lb ++ lc))
        exact congrArg String.mk (List.append_assoc la lb lc)

theorem str_append_empty (a : String) : a ++ "" = a := by
  cases a with
  | mk la =>
    show String.mk (la ++ []) = String.mk la
    exact congrArg String.mk (List.append_nil la)

theorem data_mk (l : List Char) : (String.mk l).data = l := rfl

theorem isPrefixOf_self_append (l t : List Char) : l.isPrefixOf (l ++ t) = true := by
  induction l with
  | nil => simp
  | cons c cs ih => simp [List.cons_append, List.isPrefixOf_cons₂_self, ih]

/-! ## Lemmas about `pyStrip` -/

theorem all_dropWhile_eq (p : Char → Bool) (l : List Char) :
    (l.dropWhile p).all p = l.all p := by
  induction l with
  | nil => rfl
  | cons c t ih =>
    by_cases h : p c = true
    · simp [List.dropWhile_cons, h, ih]
    · simp [List.dropWhile_cons, h]

theorem all_pyStrip (s : String) :
    (pyStrip s).data.all isSpaceChar = s.data.all isSpaceChar := by
  show (((s.data.dropWhile isSpaceChar).reverse.dropWhile isSpaceChar).reverse).all
      isSpaceChar = s.data.all isSpaceChar
  rw [List.all_reverse, all_dropWhile_eq, List.all_reverse, all_dropWhile_eq]

theorem pyStrip_eq_empty_iff (s : String) :
    pyStrip s = "" ↔ s.data.all isSpaceChar = true := by
  constructor
  · intro h
    have hd : (pyStrip s).data = [] := by rw [h]
    rw [← all_pyStrip, hd]
    rfl
  · intro h
    have h1 : s.data.dropWhile isSpaceChar = [] := by
      rw [List.dropWhile_eq_nil_iff]
      intro x hx
      exact List.all_eq_true.mp h x hx
    unfold pyStrip
    rw [h1]
    rfl

theorem pyStrip_pyStrip_ne (s : String) (h : pyStrip s ≠ "") :
    pyStrip (pyStrip s) ≠ "" := by
  intro hc
  apply h
  rw [pyStrip_eq_empty_iff] at hc ⊢
  rwa [all_pyStrip] at hc

theorem pyStrip_append3_ne (a tag u : String) (hu : pyStrip u ≠ "") :
    pyStrip (a ++ tag ++ u) ≠ "" := by
  intro hc
  apply hu
  rw [pyStrip_eq_empty_iff] at hc ⊢
  rw [str_data_append, str_data_append, List.all_append, List.all_append] at hc
  simp only [Bool.and_eq_true] at hc
  exact hc.2

/-! ## Lemmas about digits and parsing -/

theorem digitChar_isDigit (d : Nat) : (digitChar d).isDigit = true := by
  rcases d with _ | _ | _ | _ | _ | _ | _ | _ | _ | d <;> rfl

theorem charToDigit_digitChar (d : Nat) (h : d < 10) :
    charToDigit (digitChar d) = d := by
  interval_cases d <;> rfl

theorem parseDigits_append (l : List Char) (c : Char) :
    parseDigits (l ++ [c]) = 10 * parseDigits l + charToDigit c := by
  simp [parseDigits, List.foldl_append]

theorem parse_natDigitsAux :
    ∀ fuel n, n < fuel → parseDigits (natDigitsAux fuel n) = n := by
  intro fuel
  induction fuel with
  | zero => intro n h; omega
  | succ fuel ih =>
    intro n h
    rw [natDigitsAux]
    split
    · next h10 =>
      show 10 * 0 + charToDigit (digitChar n) = n
      rw [charToDigit_digitChar n h10]
      omega
    · next h10 =>
      rw [parseDigits_append, ih (n / 10) (by omega),
        charToDigit_digitChar _ (by omega)]
      omega

theorem natDigitsAux_ne_nil (fuel n : Nat) (h : n < fuel) :
    natDigitsAux fuel n ≠ [] := by
  cases fuel with
  | zero => omega
  | succ fuel =>
    rw [natDigitsAux]
    split
    · simp
    · simp

theorem natDigitsAux_all_digit :
    ∀ fuel n, ∀ c ∈ natDigitsAux fuel n, c.isDigit = true := by
  intro fuel
  induction fuel with
  | zero => intro n c hc; cases hc
  | succ fuel ih =>
    intro n c hc
    rw [natDigitsAux] at hc
    split at hc
    · rcases List.mem_singleton.mp hc with rfl
      exact digitChar_isDigit n
    · rcases List.mem_append.mp hc with hl | hr
      · exact ih (n / 10) c hl
      · rcases List.mem_singleton.mp hr with rfl
        exact digitChar_isDigit (n % 10)

theorem parseDigits_replicate_zero (k : Nat) (l : List Char) :
    parseDigits (List.replicate k '0' ++ l) = parseDigits l := by
  induction k with
  | zero => rfl
  | succ k ih =>
    show parseDigits ('0' :: (List.replicate k '0' ++ l)) = parseDigits l
    rw [← ih]
    rfl

/-! ## Lemmas about `crSuffix` and the max scan -/

theorem crSuffix_cons_cr (rest : List Char) :
    crSuffix (String.mk ('C' :: 'R' :: rest)) =
      if !rest.isEmpty && rest.all Char.isDigit then some (parseDigits rest)
      else none := by
  unfold crSuffix
  rw [data_mk]
  rw [show ('C' :: 'R' :: rest).drop 2 = rest from rfl]
  rw [show (['C', 'R'].isPrefixOf ('C' :: 'R' :: rest)) = true from by
    simp [List.isPrefixOf_cons₂_self]]
  rw [Bool.true_and]

theorem crSuffix_mkCR (n : Nat) :
    crSuffix (String.mk ('C' :: 'R' :: padLeft6 (natDigits n))) = some n := by
  rw [crSuffix_cons_cr]
  have hne : padLeft6 (natDigits n) ≠ [] := by
    intro h
    rcases List.append_eq_nil.mp h with ⟨_, h2⟩
    exact natDigitsAux_ne_nil (n + 1) n (by omega) h2
  have hempty : (padLeft6 (natDigits n)).isEmpty = false := by
    cases h : padLeft6 (natDigits n) with
    | nil => exact absurd h hne
    | cons c t => rfl
  have hall : (padLeft6 (natDigits n)).all Char.isDigit = true := by
    rw [List.all_eq_true]
    intro c hc
    rcases List.mem_append.mp hc with hl | hr
    · rcases List.eq_of_mem_replicate hl with rfl
      rfl
    · exact natDigitsAux_all_digit (n + 1) n c hr
  rw [hempty, hall]
  show some (parseDigits (padLeft6 (natDigits n))) = some n
  rw [show padLeft6 (natDigits n) =
    List.replicate (6 - (natDigits n).length) '0' ++ natDigits n from rfl]
  rw [parseDigits_replicate_zero]
  rw [show natDigits n = natDigitsAux (n + 1) n from rfl]
  rw [parse_natDigitsAux (n + 1) n (by omega)]

theorem scanStep_ge (m : Nat) (key : String) : m ≤ scanStep m key := by
  unfold scanStep
  cases crSuffix key with
  | none => exact Nat.le_refl m
  | some v =>
    dsimp only
    split <;> omega

theorem scanFold_ge (kb : KB) : ∀ a : Nat, a ≤ scanFold a kb := by
  induction kb with
  | nil => intro a; exact Nat.le_refl a
  | cons kv t ih =>
    intro a
    show a ≤ scanFold (scanStep a kv.1) t
    exact Nat.le_trans (scanStep_ge a kv.1) (ih _)

theorem scanFold_mem_le (kb : KB) :
    ∀ (a : Nat) (p : String × String), p ∈ kb →
      ∀ v, crSuffix p.1 = some v → v ≤ scanFold a kb := by
  induction kb with
  | nil => intro a p hp; cases hp
  | cons kv t ih =>
    intro a p hp v hv
    rcases List.mem_cons.mp hp with rfl | hmem
    · have h2 : v ≤ scanStep a p.1 := by
        unfold scanStep
        rw [hv]
        dsimp only
        split <;> omega
      exact Nat.le_trans h2 (Nat.le_trans (scanFold_ge t (scanStep a p.1)) (Nat.le_refl _))
    · show v ≤ scanFold (scanStep a kv.1) t
      exact ih _ p hmem v hv

theorem scanFold_eq_max (kb : KB) :
    ∀ a : Nat, scanFold a kb = max a (maxMatchedSuffix (kb.map Prod.fst)) := by
  induction kb with
  | nil =>
    intro a
    show a = max a (maxMatchedSuffix [])
    show a = max a 0
    omega
  | cons kv t ih =>
    intro a
    show scanFold (scanStep a kv.1) t = max a (maxMatchedSuffix ((kv :: t).map Prod.fst))
    rw [ih]
    simp only [maxMatchedSuffix, List.map_cons, List.filterMap_cons]
    cases h : crSuffix kv.1 with
    | none => simp [scanStep, h]
    | some v =>
      simp only [scanStep, h, List.foldr_cons]
      simp only [Nat.max_def]
      split_ifs <;> omega

/-! ## Freshness of the generated CR number -/

theorem next_cr_not_mem (kb : KB) : get_next_cr_number kb ∉ kb.map Prod.fst := by
  cases kb with
  | nil => simp
  | cons kv t =>
    intro hmem
    have hval : crSuffix (get_next_cr_number (kv :: t)) =
        some (scanFold 0 (kv :: t) + 1) := by
      show crSuffix
          (String.mk ('C' :: 'R' :: padLeft6 (natDigits (scanFold 0 (kv :: t) + 1)))) =
        some (scanFold 0 (kv :: t) + 1)
      exact crSuffix_mkCR _
    obtain ⟨p, hp, hfst⟩ := List.mem_map.mp hmem
    have hle := scanFold_mem_le (kv :: t) 0 p hp (scanFold 0 (kv :: t) + 1)
      (by rw [hfst]; exact hval)
    omega

/-! ## Lemmas about `stripInvalid` -/

theorem stripInvalidAux_no_occ :
    ∀ (fuel : Nat) (l : List Char), hasInvalid l = false → stripInvalidAux fuel l = l := by
  intro fuel
  induction fuel with
  | zero => intro l _; rfl
  | succ fuel ih =>
    intro l h
    cases l with
    | nil => rfl
    | cons c rest =>
      rw [hasInvalid] at h
      rw [Bool.or_eq_false_iff] at h
      rw [stripInvalidAux, if_neg (by rw [h.1]; exact Bool.false_ne_true)]
      rw [ih rest h.2]

theorem stripInvalid_no_occ (l : List Char) (h : hasInvalid l = false) :
    stripInvalid l = l :=
  stripInvalidAux_no_occ l.length l h

theorem stripInvalid_tag_append (rest : List Char) (h : hasInvalid rest = false) :
    stripInvalid (invalidTag ++ rest) = rest := by
  have e : stripInvalid (invalidTag ++ rest) = stripInvalidAux (rest.length + 7) rest := by
    show stripInvalidAux (invalidTag ++ rest).length (invalidTag ++ rest) =
      stripInvalidAux (rest.length + 7) rest
    rw [show (invalidTag ++ rest).length = rest.length + 8 by
      rw [List.length_append, show invalidTag.length = 8 from rfl]; omega]
    rw [show rest.length + 8 = (rest.length + 7) + 1 from rfl]
    rw [show invalidTag ++ rest = 'I' :: (['N', 'V', 'A', 'L', 'I', 'D', ':'] ++ rest)
      from rfl]
    rw [stripInvalidAux, if_pos]
    · rw [show ('I' :: (['N', 'V', 'A', 'L', 'I', 'D', ':'] ++ rest)).drop
          invalidTag.length = rest from rfl]
    · show invalidTag.isPrefixOf ('I' :: (['N', 'V', 'A', 'L', 'I', 'D', ':'] ++ rest)) = true
      exact isPrefixOf_self_append invalidTag rest
  rw [e, stripInvalidAux_no_occ _ _ h]

/-! ## Lemmas about the knowledge-base store -/

theorem anyKey_eq_true_iff (kb : KB) (k : String) :
    anyKey kb k = true ↔ k ∈ kb.map Prod.fst := by
  unfold anyKey
  rw [List.any_eq_true]
  constructor
  · rintro ⟨p, hp, he⟩
    rw [beq_iff_eq] at he
    exact List.mem_map.mpr ⟨p, hp, he⟩
  · intro hm
    obtain ⟨p, hp, he⟩ := List.mem_map.mp hm
    exact ⟨p, hp, beq_iff_eq.mpr he⟩

theorem anyKey_eq_false_iff (kb : KB) (k : String) :
    anyKey kb k = false ↔ k ∉ kb.map Prod.fst := by
  cases h : anyKey kb k with
  | true =>
    simp only [Bool.true_eq_false, false_iff, not_not]
    exact (anyKey_eq_true_iff kb k).mp h
  | false =>
    simp only [true_iff]
    intro hm
    rw [← anyKey_eq_true_iff kb k] at hm
    rw [h] at hm
    exact Bool.false_ne_true hm

theorem lookup_append_ne (kb : KB) (k k' v : String) (h : k' ≠ k) :
    List.lookup k' (kb ++ [(k, v)]) = List.lookup k' kb := by
  induction kb with
  | nil =>
    have hb : (k' == k) = false := beq_eq_false_iff_ne.mpr h
    simp [List.lookup, hb]
  | cons p t ih =>
    obtain ⟨pk, pv⟩ := p
    simp only [List.cons_append, List.lookup]
    cases hb : (k' == pk) with
    | true => rfl
    | false => exact ih

theorem lookup_append_self (kb : KB) (k v : String) (h : k ∉ kb.map Prod.fst) :
    List.lookup k (kb ++ [(k, v)]) = some v := by
  induction kb with
  | nil => simp [List.lookup]
  | cons p t ih =>
    obtain ⟨pk, pv⟩ := p
    simp only [List.map_cons, List.mem_cons, not_or] at h
    have hb : (k == pk) = false := beq_eq_false_iff_ne.mpr h.1
    simp only [List.cons_append, List.lookup, hb]
    exact ih h.2

theorem nodup_append_key (keys : List String) (k : String)
    (hn : keys.Nodup) (hk : k ∉ keys) : (keys ++ [k]).Nodup := by
  rw [List.nodup_append]
  exact ⟨hn, List.nodup_singleton k, by simp [List.disjoint_singleton, hk]⟩

theorem dictInsert_not_mem (kb : KB) (k v : String) (h : anyKey kb k = false) :
    dictInsert kb k v = kb ++ [(k, v)] := by
  unfold dictInsert
  rw [if_neg (by rw [h]; exact Bool.false_ne_true)]

theorem insertIntoKB_mem (s : KBState) (key doc : String)
    (h : key ∈ s.kb.map Prod.fst) :
    insertIntoKB s key doc = ⟨s.kb, s.persisted, some key⟩ := by
  have ha : anyKey s.kb key = true := (anyKey_eq_true_iff _ _).mpr h
  show (if anyKey s.kb key then (⟨s.kb, s.persisted, some key⟩ : KBState)
    else ⟨dictInsert s.kb key doc, dictInsert s.kb key doc, none⟩) = _
  rw [if_pos ha]

theorem insertIntoKB_not_mem (s : KBState) (key doc : String)
    (h : key ∉ s.kb.map Prod.fst) :
    insertIntoKB s key doc =
      ⟨s.kb ++ [(key, doc)], s.kb ++ [(key, doc)], none⟩ := by
  have ha : anyKey s.kb key = false := (anyKey_eq_false_iff _ _).mpr h
  show (if anyKey s.kb key then (⟨s.kb, s.persisted, some key⟩ : KBState)
    else ⟨dictInsert s.kb key doc, dictInsert s.kb key doc, none⟩) = _
  rw [dictInsert_not_mem s.kb key doc ha,
    if_neg (fun hc => Bool.false_ne_true (ha ▸ hc))]

/-! ## Claim theorems -/

/-- C1: for every knowledge base, `get_next_cr_number` returns `"CR"` followed
by the zero-padded successor of the maximum numeric suffix among keys matching
the `"CR" + digits` pattern; non-conforming keys are ignored (they never change
the result) rather than causing an error; an empty knowledge base yields
`"CR000001"`; the base with keys `{CR000001, CR000003}` yields `"CR000004"`. -/
theorem c1_get_next_cr_number :
    (∀ kb : KB, get_next_cr_number kb =
        String.mk ('C' :: 'R' ::
          padLeft6 (natDigits (maxMatchedSuffix (kb.map Prod.fst) + 1)))) ∧
    (∀ (kb : KB) (key doc : String), crSuffix key = none →
        get_next_cr_number ((key, doc) :: kb) = get_next_cr_number kb) ∧
    get_next_cr_number [] = "CR000001" ∧
    (∀ d₁ d₂ : String,
        get_next_cr_number [("CR000001", d₁), ("CR000003", d₂)] = "CR000004") := by
  refine ⟨?_, ?_, by decide, ?_⟩
  · intro kb
    cases kb with
    | nil => decide
    | cons kv t =>
      show String.mk ('C' :: 'R' :: padLeft6 (natDigits (scanFold 0 (kv :: t) + 1))) = _
      rw [scanFold_eq_max, Nat.zero_max]
  · intro kb key doc h
    have hs : scanStep 0 key = 0 := by unfold scanStep; rw [h]
    cases kb with
    | nil =>
      show String.mk ('C' :: 'R' ::
          padLeft6 (natDigits (scanFold (scanStep 0 key) [] + 1))) = get_next_cr_number []
      rw [hs]
      decide
    | cons kv t =>
      show String.mk ('C' :: 'R' ::
          padLeft6 (natDigits (scanFold (scanStep 0 key) (kv :: t) + 1))) =
        String.mk ('C' :: 'R' :: padLeft6 (natDigits (scanFold 0 (kv :: t) + 1)))
      rw [hs]
  · intro d₁ d₂
    have h1 : scanStep 0 "CR000001" = 1 := by decide
    have h2 : scanStep 1 "CR000003" = 3 := by decide
    show String.mk ('C' :: 'R' ::
        padLeft6 (natDigits (scanStep (scanStep 0 "CR000001") "CR000003" + 1))) =
      "CR000004"
    rw [h1, h2]
    decide

/-- Witness for C1: inserting a non-conforming key (here `"template"`) leaves
the generated next CR number unchanged. -/
theorem c1_get_next_cr_number_witness :
    get_next_cr_number [("template", "x"), ("CR000002", "y")] =
      get_next_cr_number [("CR000002", "y")] :=
  c1_get_next_cr_number.2.1 [("CR000002", "y")] "template" "x" (by decide)

/-- C2: inserting under an already-present key only sets the conflict flag and
leaves the in-memory base, the persisted store, and the stored value for that
key unchanged; inserting under a fresh key stores the document under it,
persists the whole base, and clears the conflict flag. -/
theorem c2_insert_conflict_or_store (s : KBState) (key doc : String) :
    (key ∈ s.kb.map Prod.fst →
        insertIntoKB s key doc = ⟨s.kb, s.persisted, some key⟩ ∧
        lookupKB (insertIntoKB s key doc).kb key = lookupKB s.kb key) ∧
    (key ∉ s.kb.map Prod.fst →
        (insertIntoKB s key doc).kb = s.kb ++ [(key, doc)] ∧
        lookupKB (insertIntoKB s key doc).kb key = some doc ∧
        (insertIntoKB s key doc).persisted = (insertIntoKB s key doc).kb ∧
        (insertIntoKB s key doc).cr_conflict = none) := by
  constructor
  · intro hmem
    have he := insertIntoKB_mem s key doc hmem
    exact ⟨he, by rw [he]⟩
  · intro hmem
    have he := insertIntoKB_not_mem s key doc hmem
    refine ⟨by rw [he], ?_, by rw [he], by rw [he]⟩
    rw [he]
    exact lookup_append_self s.kb key doc hmem

/-- Witness for C2: with `CR000001` already stored, re-inserting under
`CR000001` only flags the conflict, while inserting under `CR000002` stores
the new document. -/
theorem c2_insert_conflict_or_store_witness :
    insertIntoKB ⟨[("CR000001", "doc1")], [("CR000001", "doc1")], none⟩
        "CR000001" "doc2" =
      ⟨[("CR000001", "doc1")], [("CR000001", "doc1")], some "CR000001"⟩ ∧
    lookupKB (insertIntoKB ⟨[("CR000001", "doc1")], [("CR000001", "doc1")], none⟩
        "CR000002" "doc2").kb "CR000002" = some "doc2" :=
  ⟨((c2_insert_conflict_or_store ⟨[("CR000001", "doc1")], [("CR000001", "doc1")], none⟩
      "CR000001" "doc2").1 (by decide)).1,
   ((c2_insert_conflict_or_store ⟨[("CR000001", "doc1")], [("CR000001", "doc1")], none⟩
      "CR000002" "doc2").2 (by decide)).2.1⟩

/-- C3: the key generated by `get_next_cr_number` is never already present in
the knowledge base (for arbitrary keys, conforming or not); hence
`Auto-Assign & Save`, which stores under a freshly computed key with no
uniqueness check, appends a new record, preserves every existing record and
persists the result; and key uniqueness is preserved by both insertion
paths. -/
theorem c3_auto_assign_fresh (s : KBState) (doc : String) :
    get_next_cr_number s.kb ∉ s.kb.map Prod.fst ∧
    (autoAssignSave s doc).kb = s.kb ++ [(get_next_cr_number s.kb, doc)] ∧
    (autoAssignSave s doc).persisted = (autoAssignSave s doc).kb ∧
    (∀ k, k ∈ s.kb.map Prod.fst →
        lookupKB (autoAssignSave s doc).kb k = lookupKB s.kb k) ∧
    ((s.kb.map Prod.fst).Nodup → ((autoAssignSave s doc).kb.map Prod.fst).Nodup) ∧
    (∀ key doc2, (s.kb.map Prod.fst).Nodup →
        ((insertIntoKB s key doc2).kb.map Prod.fst).Nodup) := by
  have hfresh := next_cr_not_mem s.kb
  have ha : anyKey s.kb (get_next_cr_number s.kb) = false :=
    (anyKey_eq_false_iff _ _).mpr hfresh
  have hkb : (autoAssignSave s doc).kb = s.kb ++ [(get_next_cr_number s.kb, doc)] := by
    show dictInsert s.kb (get_next_cr_number s.kb) doc = _
    exact dictInsert_not_mem _ _ _ ha
  refine ⟨hfresh, hkb, rfl, ?_, ?_, ?_⟩
  · intro k hk
    rw [hkb]
    have hne : k ≠ get_next_cr_number s.kb := fun he => hfresh (he ▸ hk)
    exact lookup_append_ne s.kb (get_next_cr_number s.kb) k doc hne
  · intro hn
    rw [hkb, List.map_append]
    exact nodup_append_key _ _ hn hfresh
  · intro key doc2 hn
    by_cases hm : key ∈ s.kb.map Prod.fst
    · rw [insertIntoKB_mem s key doc2 hm]
      exact hn
    · rw [insertIntoKB_not_mem s key doc2 hm, List.map_append]
      exact nodup_append_key _ _ hn hm

/-- Witness for C3: auto-assign on a base with a conforming and a
non-conforming key preserves the stored record and key uniqueness, as does a
normal insert. -/
theorem c3_auto_assign_fresh_witness :
    lookupKB (autoAssignSave ⟨[("CR000001", "a"), ("junk", "b")],
        [("CR000001", "a"), ("junk", "b")], none⟩ "d").kb "CR000001" =
      lookupKB [("CR000001", "a"), ("junk", "b")] "CR000001" ∧
    ((autoAssignSave ⟨[("CR000001", "a"), ("junk", "b")],
        [("CR000001", "a"), ("junk", "b")], none⟩ "d").kb.map Prod.fst).Nodup ∧
    ((insertIntoKB ⟨[("CR000001", "a"), ("junk", "b")],
        [("CR000001", "a"), ("junk", "b")], none⟩ "CR000007" "z").kb.map
        Prod.fst).Nodup :=
  ⟨(c3_auto_assign_fresh ⟨[("CR000001", "a"), ("junk", "b")],
      [("CR000001", "a"), ("junk", "b")], none⟩ "d").2.2.2.1 "CR000001" (by decide),
   (c3_auto_assign_fresh ⟨[("CR000001", "a"), ("junk", "b")],
      [("CR000001", "a"), ("junk", "b")], none⟩ "d").2.2.2.2.1 (by decide),
   (c3_auto_assign_fresh ⟨[("CR000001", "a"), ("junk", "b")],
      [("CR000001", "a"), ("junk", "b")], none⟩ "d").2.2.2.2.2 "CR000007" "z"
      (by decide)⟩

/-- C4: any backend exception during gap analysis yields the `"NONE"` no-gaps
result, and the decision fork then proceeds directly to synthesis (fail open);
a backend response of exactly the sentinel `"NONE"` likewise yields an empty
gap report and direct synthesis. -/
theorem c4_gap_check_fail_open (e : String) :
    check_missing_information (.error e) = "NONE" ∧
    decisionFork (check_missing_information (.error e)) = .synthesize ∧
    check_missing_information (.ok "NONE") = "NONE" ∧
    decisionFork (check_missing_information (.ok "NONE")) = .synthesize := by
  refine ⟨rfl, ?_, by decide, by decide⟩
  show decisionFork "NONE" = .synthesize
  decide

/-- C5: a backend exception during relevance validation produces the
`INVALID`-prefixed message embedding the error text verbatim, which the
validation step parses as an `Invalid` verdict, blocking the attempt
(fail closed). -/
theorem c5_relevance_fail_closed (e : String) :
    check_document_relevance (.error e) =
      "INVALID: API Error during validation - " ++ e ∧
    invalidTok.isPrefixOf (check_document_relevance (.error e)).data = true ∧
    (∃ reason, validationStep (check_document_relevance (.error e)) =
      .invalid reason) ∧
    validationStep (check_document_relevance (.error e)) ≠ .valid := by
  have h1 : check_document_relevance (.error e) =
      "INVALID: API Error during validation - " ++ e := rfl
  have h2 : invalidTok.isPrefixOf (check_document_relevance (.error e)).data = true := by
    rw [h1, str_data_append]
    rw [show ("INVALID: API Error during validation - " : String).data =
      invalidTok ++ (": API Error during validation - " : String).data from by decide]
    rw [List.append_assoc]
    exact isPrefixOf_self_append _ _
  have h3 : validationStep (check_document_relevance (.error e)) =
      .invalid (pyStrip (String.mk
        (stripInvalid (check_document_relevance (.error e)).data))) := by
    unfold validationStep
    rw [if_pos h2]
  exact ⟨h1, h2, ⟨_, h3⟩, by rw [h3]; simp⟩

/-- Counterexample for C6: the response `" INVALID: off-topic"` is non-empty
and does not begin with the invalid sentinel, yet the validator does not treat
it as `Valid` (the code strips the response before the sentinel check). -/
theorem c6_relevance_leading_ws_cex :
    (" INVALID: off-topic" : String) ≠ "" ∧
    invalidTok.isPrefixOf (" INVALID: off-topic" : String).data = false ∧
    validationStep (check_document_relevance (.ok " INVALID: off-topic")) =
      .invalid "off-topic" ∧
    validationStep (check_document_relevance (.ok " INVALID: off-topic")) ≠
      .valid := by decide

/-- C6 (amended): the backend response is whitespace-stripped on receipt; when
the stripped response begins with the `"INVALID:"` sentinel (and the sentinel
does not reoccur), the verdict is `Invalid` with the reason being the stripped
response minus that prefix; when the stripped response does not begin with
`"INVALID"`, any response — of whatever format — is treated as `Valid`: only
the invalid prefix is checked. -/
theorem c6_relevance_verdict_amended (resp : String) (rest : List Char) :
    ((pyStrip resp).data = invalidTag ++ rest → hasInvalid rest = false →
        validationStep (check_document_relevance (.ok resp)) =
          .invalid (pyStrip (String.mk rest))) ∧
    (invalidTok.isPrefixOf (pyStrip resp).data = false → resp ≠ "" →
        validationStep (check_document_relevance (.ok resp)) = .valid) ∧
    (invalidTok.isPrefixOf (pyStrip resp).data = true →
        validationStep (check_document_relevance (.ok resp)) ≠ .valid) := by
  have hc : check_document_relevance (.ok resp) = pyStrip resp := rfl
  refine ⟨?_, ?_, ?_⟩
  · intro hdata hocc
    have hpre : invalidTok.isPrefixOf (invalidTag ++ rest) = true := by
      have hsplit : invalidTag ++ rest = invalidTok ++ (':' :: rest) := by
        show (invalidTok ++ [':']) ++ rest = invalidTok ++ (':' :: rest)
        rw [List.append_assoc]
        rfl
      rw [hsplit]
      exact isPrefixOf_self_append _ _
    unfold validationStep
    rw [hc, hdata, if_pos hpre, stripInvalid_tag_append rest hocc]
  · intro hnp _
    unfold validationStep
    rw [hc, if_neg (fun hcond => Bool.false_ne_true (hnp ▸ hcond))]
  · intro hp
    unfold validationStep
    rw [hc, if_pos hp]
    simp

/-- Witness for C6 (amended): a well-formed invalid response yields the
reason stripped of the sentinel prefix. -/
theorem c6_relevance_verdict_amended_witness :
    validationStep (check_document_relevance
        (.ok "INVALID: not a regulatory document")) =
      .invalid (pyStrip (String.mk (" not a regulatory document" : String).data)) :=
  (c6_relevance_verdict_amended "INVALID: not a regulatory document"
      (" not a regulatory document" : String).data).1 (by decide) (by decide)

/-- Counterexample for C7: a successful backend call whose returned text is
empty does not become the generated document — the state is left unchanged
(Python `if response:` treats the empty string as falsy). -/
theorem c7_synthesis_empty_response_cex :
    execute_synthesis_update ⟨"previous document", false⟩
        (get_groq_response (some "gsk-key") (.ok "")) =
      ⟨"previous document", false⟩ ∧
    (execute_synthesis_update ⟨"previous document", false⟩
        (get_groq_response (some "gsk-key") (.ok ""))).generated_sd ≠ "" := by
  decide

/-- C7 (amended): synthesis signals failure (`none`) and leaves the pipeline
state unchanged when the backend call raises or when the API key is absent —
the key is checked before the call, so with a falsy key the result is `none`
for every backend outcome; a successful call with non-empty text makes that
full text the generated document; a successful call with empty text is
likewise treated as failure and leaves the state unchanged. -/
theorem c7_synthesis_failure_semantics (s : PipelineState) (k : Option String)
    (backend : Except String String) :
    (∀ e, execute_synthesis_update s (get_groq_response k (.error e)) = s) ∧
    (k.getD "" = "" →
        get_groq_response k backend = none ∧
        execute_synthesis_update s (get_groq_response k backend) = s) ∧
    execute_synthesis_update s (get_groq_response k (.ok "")) = s ∧
    (∀ r, r ≠ "" → k.getD "" ≠ "" →
        execute_synthesis_update s (get_groq_response k (.ok r)) = ⟨r, false⟩) := by
  refine ⟨?_, ?_, ?_, ?_⟩
  · intro e
    unfold get_groq_response
    by_cases hk : k.getD "" = ""
    · rw [if_pos hk]
      rfl
    · rw [if_neg hk]
      rfl
  · intro hk
    have h1 : get_groq_response k backend = none := by
      unfold get_groq_response
      rw [if_pos hk]
    exact ⟨h1, by rw [h1]; rfl⟩
  · unfold get_groq_response
    by_cases hk : k.getD "" = ""
    · rw [if_pos hk]
      rfl
    · rw [if_neg hk]
      rfl
  · intro r hr hk
    unfold get_groq_response
    rw [if_neg hk]
    show (if r = "" then s else (⟨r, false⟩ : PipelineState)) = ⟨r, false⟩
    rw [if_neg hr]

/-- Witness for C7 (amended): with no API key the state is untouched even for
a successful backend outcome; with a key and non-empty text the document is
replaced. -/
theorem c7_synthesis_failure_semantics_witness :
    execute_synthesis_update ⟨"old", true⟩ (get_groq_response none (.ok "text")) =
      ⟨"old", true⟩ ∧
    execute_synthesis_update ⟨"old", true⟩
        (get_groq_response (some "gsk") (.ok "new doc")) = ⟨"new doc", false⟩ :=
  ⟨((c7_synthesis_failure_semantics ⟨"old", true⟩ none (.ok "text")).2.1
      (by decide)).2,
   (c7_synthesis_failure_semantics ⟨"old", true⟩ (some "gsk") (.ok "new doc")).2.2.2
     "new doc" (by decide) (by decide)⟩

/-- C8: proceeding from the missing-information pause invokes synthesis with
the cached regulatory, business, and template texts; non-blank supplemental
text is appended (under its label) to the cached supporting text, while blank
supplemental input leaves the supporting text unchanged. -/
theorem c8_proceed_appends_supplement (cached : CachedDocs) (u : String) :
    (proceedHandler cached u).reg = cached.reg ∧
    (proceedHandler cached u).brd = cached.brd ∧
    (proceedHandler cached u).template = cached.tpl ∧
    (pyStrip u = "" → (proceedHandler cached u).additional = cached.add) ∧
    (pyStrip u ≠ "" →
        (proceedHandler cached u).additional = cached.add ++ supplementalTag ++ u) := by
  refine ⟨rfl, rfl, rfl, ?_, ?_⟩
  · intro h
    show proceedCombined cached.add u = cached.add
    unfold proceedCombined
    rw [if_neg (fun hc => hc h)]
  · intro h
    show proceedCombined cached.add u = cached.add ++ supplementalTag ++ u
    unfold proceedCombined
    rw [if_pos h]

/-- Witness for C8: non-blank supplemental text is appended under its label;
whitespace-only input changes nothing. -/
theorem c8_proceed_appends_supplement_witness :
    (proceedHandler ⟨"r", "b", "a", "t"⟩ "extra details").additional =
      "a" ++ supplementalTag ++ "extra details" ∧
    (proceedHandler ⟨"r", "b", "a", "t"⟩ "  ").additional = "a" :=
  ⟨(c8_proceed_appends_supplement ⟨"r", "b", "a", "t"⟩ "extra details").2.2.2.2
      (by decide),
   (c8_proceed_appends_supplement ⟨"r", "b", "a", "t"⟩ "  ").2.2.2.1 (by decide)⟩

/-- C9: for every synthesis invocation, an empty supporting text produces a
prompt with no `Additional Supporting Document` section at all, and a
non-empty one produces the prompt with that section containing the supporting
text verbatim.  Every supporting text actually passed to synthesis — the
stripped output of text extraction, or the proceed-handler combination of such
an output with supplemental input — is blank only when empty
(`GoodAdditional`), so the two cases are exhaustive over real invocations. -/
theorem c9_synthesis_prompt_sections (reg brd tpl parent add : String) :
    (add = "" →
        synthesizePrompt reg brd add tpl parent =
          basePrompt reg brd tpl ++ parentPart parent) ∧
    (GoodAdditional add → add ≠ "" →
        synthesizePrompt reg brd add tpl parent =
          basePrompt reg brd tpl ++ addHeader ++ add ++ "\n" ++ parentPart parent) ∧
    addHeader = "\n---\n**4. " ++ "Additional Supporting Document" ++ " Content:**\n" ∧
    (∀ c, GoodAdditional (extract_result c)) ∧
    (∀ a u, GoodAdditional a → GoodAdditional (proceedCombined a u)) := by
  refine ⟨?_, ?_, rfl, ?_, ?_⟩
  · rintro rfl
    simp only [synthesizePrompt]
    rw [if_neg (fun hc : pyStrip "" ≠ "" => hc rfl)]
    unfold parentPart
    by_cases hp : parent = ""
    · rw [if_neg (fun hc => hc hp), if_neg (fun hc => hc hp), str_append_empty]
    · rw [if_pos hp, if_pos hp]
      simp only [str_append_assoc]
  · intro hg hne
    have hps : pyStrip add ≠ "" := hg hne
    simp only [synthesizePrompt]
    rw [if_pos hps]
    unfold parentPart
    by_cases hp : parent = ""
    · rw [if_neg (fun hc => hc hp), if_neg (fun hc => hc hp), str_append_empty]
    · rw [if_pos hp, if_pos hp]
      simp only [str_append_assoc]
  · intro c hne
    exact pyStrip_pyStrip_ne c hne
  · intro a u hg
    unfold proceedCombined
    by_cases hu : pyStrip u ≠ ""
    · rw [if_pos hu]
      intro _
      exact pyStrip_append3_ne a supplementalTag u hu
    · rw [if_neg hu]
      exact hg

/-- Witness for C9: with supporting text `"support"` the section appears with
the text verbatim; with empty supporting text the prompt is exactly the base
prompt. -/
theorem c9_synthesis_prompt_sections_witness :
    synthesizePrompt "reg" "brd" "support" "tpl" "" =
      basePrompt "reg" "brd" "tpl" ++ addHeader ++ "support" ++ "\n" ++
        parentPart "" ∧
    synthesizePrompt "reg" "brd" "" "tpl" "" =
      basePrompt "reg" "brd" "tpl" ++ parentPart "" :=
  ⟨(c9_synthesis_prompt_sections "reg" "brd" "tpl" "" "support").2.1
      (fun _ => by decide) (by decide),
   (c9_synthesis_prompt_sections "reg" "brd" "tpl" "" "").1 rfl⟩

/-- C10: at store time a CR key field that is empty or all whitespace falls
back to the auto-generated next key, while a non-blank field is stripped of
surrounding whitespace before the uniqueness check and storage. -/
theorem c10_store_key_resolution (s : KBState) (current_cr doc : String) :
    (current_cr.data.all isSpaceChar = true →
        insertHandler s current_cr doc =
          insertIntoKB s (get_next_cr_number s.kb) doc) ∧
    (pyStrip current_cr ≠ "" →
        insertHandler s current_cr doc =
          insertIntoKB s (pyStrip current_cr) doc) := by
  constructor
  · intro h
    have hs : pyStrip current_cr = "" := (pyStrip_eq_empty_iff current_cr).mpr h
    simp only [insertHandler]
    rw [if_neg (fun hc => hc hs)]
  · intro h
    simp only [insertHandler]
    rw [if_pos h]

/-- Witness for C10: a whitespace-only key field uses the auto-generated key;
a padded explicit key is stripped before use. -/
theorem c10_store_key_resolution_witness :
    insertHandler ⟨[], [], none⟩ "   " "d" =
      insertIntoKB ⟨[], [], none⟩ (get_next_cr_number []) "d" ∧
    insertHandler ⟨[], [], none⟩ "  CR000009  " "d" =
      insertIntoKB ⟨[], [], none⟩ (pyStrip "  CR000009  ") "d" :=
  ⟨(c10_store_key_resolution ⟨[], [], none⟩ "   " "d").1 (by decide),
   (c10_store_key_resolution ⟨[], [], none⟩ "  CR000009  " "d").2 (by decide)⟩

end SDMaker
